import Mathlib

/-!
Shallow embedding of the `bagarre` fighting-game engine core
(src/types.rs, src/constants.rs, src/input.rs, src/state.rs,
src/hitbox.rs, src/entity.rs, src/engine.rs) and proofs about it.

Rust `i32`/`u32` arithmetic is modelled with unbounded `Int`/`Nat`;
no operation relevant to the verified properties overflows 32 bits.
Rust integer division on `i32` truncates toward zero, which is `Int.tdiv`.
Fixed-capacity Rust arrays with an explicit element count are modelled as
lists whose operations enforce the same capacity bounds.
-/

set_option autoImplicit false

namespace Bagarre

/-! ## Constants (src/constants.rs) -/

/-- Gravity acceleration applied each frame when airborne (constants.rs). -/
def GRAVITY : Int := 80

/-- Momentum decay factor numerator (constants.rs). -/
def MOMENTUM_DECAY_PERCENT : Int := 90

/-- Momentum decay divisor (constants.rs). -/
def MOMENTUM_DECAY_DIVISOR : Int := 100

/-- Knockback threshold below which an entity is launched airborne (constants.rs). -/
def KNOCKBACK_THRESHOLD : Int := -100

/-- Input ring buffer capacity in frames (constants.rs). -/
def INPUT_BUFFER_SIZE : Nat := 30

/-- Motion detection trailing window in frames (constants.rs). -/
def MOTION_DETECTION_WINDOW : Nat := 15

/-- Maximum registered states per state machine (constants.rs). -/
def MAX_STATES : Nat := 32

/-- Maximum frame data entries per state (constants.rs). -/
def MAX_FRAME_DATA_PER_STATE : Nat := 32

/-- Maximum actions returned for a single frame (constants.rs). -/
def MAX_ACTIONS_PER_FRAME : Nat := 8

/-- Maximum hitboxes in the collision system (constants.rs). -/
def MAX_HITBOXES : Nat := 32

/-- Maximum hurtboxes in the collision system (constants.rs). -/
def MAX_HURTBOXES : Nat := 32

/-- Maximum collision results per frame (constants.rs). -/
def MAX_COLLISIONS_PER_FRAME : Nat := 16

/-- Maximum entity slots (constants.rs). -/
def MAX_ENTITIES : Nat := 4

/-- Number of players (constants.rs). -/
def MAX_PLAYERS : Nat := 2

/-! ## Geometry primitives (src/types.rs) -/

/-- 2D fixed-point integer vector (types.rs `Vec2`). -/
structure Vec2 where
  x : Int
  y : Int
deriving DecidableEq, Repr

/-- `Vec2::ZERO`. -/
def Vec2.ZERO : Vec2 := ⟨0, 0⟩

/-- `Vec2::add`. -/
def Vec2.add (v o : Vec2) : Vec2 := ⟨v.x + o.x, v.y + o.y⟩

/-- `Vec2::sub`. -/
def Vec2.sub (v o : Vec2) : Vec2 := ⟨v.x - o.x, v.y - o.y⟩

/-- Left/top-origin axis-aligned rectangle (types.rs `Rect`). -/
structure Rect where
  x : Int
  y : Int
  width : Int
  height : Int
deriving DecidableEq, Repr

/-- `Rect::new`. -/
def Rect.new (x y width height : Int) : Rect := ⟨x, y, width, height⟩

/-- `Rect::left`. -/
def Rect.left (r : Rect) : Int := r.x

/-- `Rect::right`. -/
def Rect.right (r : Rect) : Int := r.x + r.width

/-- `Rect::top`. -/
def Rect.top (r : Rect) : Int := r.y

/-- `Rect::bottom`. -/
def Rect.bottom (r : Rect) : Int := r.y + r.height

/-- `Rect::intersects`: strict AABB overlap test (types.rs). -/
def Rect.intersects (r other : Rect) : Bool :=
  decide (r.left < other.right) &&
  decide (r.right > other.left) &&
  decide (r.top < other.bottom) &&
  decide (r.bottom > other.top)

/-- Facing direction of an entity (types.rs `Facing`). -/
inductive Facing where
  | Left
  | Right
deriving DecidableEq, Repr

/-- `Facing::sign`: -1 for left, 1 for right. -/
def Facing.sign : Facing → Int
  | Facing.Left => -1
  | Facing.Right => 1

/-- Entity identifier (types.rs `EntityId`, a `u32` newtype). -/
abbrev EntityId := Nat

/-- Player identifier (types.rs `PlayerId`, a `u8` newtype); players are 0 and 1. -/
abbrev PlayerId := Nat

/-! ## Input system (src/input.rs) -/

/-- Button inputs (input.rs `Button`). -/
inductive Button where
  | Light
  | Medium
  | Heavy
  | Special
deriving DecidableEq, Repr

/-- Directional inputs, numpad notation (input.rs `Direction`). -/
inductive Direction where
  | Neutral
  | Down
  | DownBack
  | Back
  | UpBack
  | Up
  | UpForward
  | Forward
  | DownForward
deriving DecidableEq, Repr

/-- `Direction::is_down`. -/
def Direction.is_down : Direction → Bool
  | Direction.Down | Direction.DownBack | Direction.DownForward => true
  | _ => false

/-- `Direction::is_up`. -/
def Direction.is_up : Direction → Bool
  | Direction.Up | Direction.UpBack | Direction.UpForward => true
  | _ => false

/-- `Direction::is_back`. -/
def Direction.is_back : Direction → Bool
  | Direction.Back | Direction.DownBack | Direction.UpBack => true
  | _ => false

/-- `Direction::is_forward`. -/
def Direction.is_forward : Direction → Bool
  | Direction.Forward | Direction.DownForward | Direction.UpForward => true
  | _ => false

/-- Input snapshot for a single frame (input.rs `InputState`). -/
structure InputState where
  direction : Direction
  light : Bool
  medium : Bool
  heavy : Bool
  special : Bool
deriving DecidableEq, Repr

/-- `InputState::neutral`. -/
def InputState.neutral : InputState :=
  ⟨Direction.Neutral, false, false, false, false⟩

/-- `InputState::button_pressed`. -/
def InputState.button_pressed (s : InputState) : Button → Bool
  | Button.Light => s.light
  | Button.Medium => s.medium
  | Button.Heavy => s.heavy
  | Button.Special => s.special

/-- Per-player ring buffer of recent inputs (input.rs `InputBuffer`).
The Rust fixed array `[InputState; INPUT_BUFFER_SIZE]` is a list of that length. -/
structure InputBuffer where
  buffer : List InputState
  write_index : Nat
  facing : Facing
deriving DecidableEq, Repr

/-- `InputBuffer::new`. -/
def InputBuffer.new (facing : Facing) : InputBuffer :=
  ⟨List.replicate INPUT_BUFFER_SIZE InputState.neutral, 0, facing⟩

/-- `InputBuffer::push`: overwrite the slot at the write cursor, advance modulo capacity. -/
def InputBuffer.push (b : InputBuffer) (input : InputState) : InputBuffer :=
  { b with
    buffer := b.buffer.set b.write_index input
    write_index := (b.write_index + 1) % INPUT_BUFFER_SIZE }

/-- `InputBuffer::current`: most recently pushed snapshot. -/
def InputBuffer.current (b : InputBuffer) : InputState :=
  let prev_index := if b.write_index = 0 then INPUT_BUFFER_SIZE - 1 else b.write_index - 1
  b.buffer.getD prev_index InputState.neutral

/-- `InputBuffer::button_just_pressed`: edge detection against the previous snapshot. -/
def InputBuffer.button_just_pressed (b : InputBuffer) (button : Button) : Bool :=
  let current := b.current
  let prev_index :=
    if b.write_index < 2 then INPUT_BUFFER_SIZE - 2 + b.write_index else b.write_index - 2
  let previous := b.buffer.getD prev_index InputState.neutral
  current.button_pressed button && !previous.button_pressed button

/-- `InputBuffer::detect_sequence`: the Rust double loop over
`start_back in 0..MOTION_DETECTION_WINDOW` and `seq_offset in 0..sequence.len()`,
matching the most recent direction against the pattern's last element. -/
def InputBuffer.detect_sequence (b : InputBuffer) (sequence : List Direction) : Bool :=
  if sequence.isEmpty then false
  else
    (List.range MOTION_DETECTION_WINDOW).any fun start_back =>
      (List.range sequence.length).all fun seq_offset =>
        let buffer_idx :=
          if start_back + seq_offset + 1 ≤ b.write_index then
            b.write_index - start_back - seq_offset - 1
          else
            INPUT_BUFFER_SIZE + b.write_index - start_back - seq_offset - 1
        let dir := (b.buffer.getD buffer_idx InputState.neutral).direction
        let expected := sequence.getD (sequence.length - 1 - seq_offset) Direction.Neutral
        dir == expected

/-- `InputBuffer::detect_qcf`: quarter circle forward (236). -/
def InputBuffer.detect_qcf (b : InputBuffer) : Bool :=
  b.detect_sequence [Direction.Down, Direction.DownForward, Direction.Forward]

/-- `InputBuffer::detect_qcb`: quarter circle back (214). -/
def InputBuffer.detect_qcb (b : InputBuffer) : Bool :=
  b.detect_sequence [Direction.Down, Direction.DownBack, Direction.Back]

/-- `InputBuffer::set_facing`. -/
def InputBuffer.set_facing (b : InputBuffer) (facing : Facing) : InputBuffer :=
  { b with facing := facing }

/-- Input manager holding one buffer per player (input.rs `InputManager`).
The Rust two-element array `player_inputs` is the pair of fields `p1`, `p2`;
index 0 is `p1`, index 1 is `p2`, any other index is out of range. -/
structure InputManager where
  p1 : InputBuffer
  p2 : InputBuffer
deriving DecidableEq, Repr

/-- `InputManager::new`. -/
def InputManager.new : InputManager :=
  ⟨InputBuffer.new Facing.Right, InputBuffer.new Facing.Left⟩

/-- `InputManager::update_player_input`: push into the indexed buffer when in range. -/
def InputManager.update_player_input (m : InputManager) (player : Nat)
    (input : InputState) : InputManager :=
  if player = 0 then { m with p1 := m.p1.push input }
  else if player = 1 then { m with p2 := m.p2.push input }
  else m

/-- `InputManager::get_player_input`: the indexed buffer, or none when out of range. -/
def InputManager.get_player_input (m : InputManager) (player : Nat) : Option InputBuffer :=
  if player = 0 then some m.p1
  else if player = 1 then some m.p2
  else none

/-! ## Hitboxes and collision (src/hitbox.rs) -/

/-- Kind of collision box (hitbox.rs `BoxType`). -/
inductive BoxType where
  | Hitbox
  | Hurtbox
  | Pushbox
deriving DecidableEq, Repr

/-- Per-hit attack configuration (hitbox.rs `AttackData`). -/
structure AttackData where
  damage : Int
  hitstun : Nat
  blockstun : Nat
  pushback_x : Int
  pushback_y : Int
  can_block : Bool
  is_overhead : Bool
  is_low : Bool
deriving DecidableEq, Repr

/-- `AttackData::new`. -/
def AttackData.new (damage : Int) : AttackData :=
  { damage := damage
    hitstun := 12
    blockstun := 8
    pushback_x := 500
    pushback_y := 0
    can_block := true
    is_overhead := false
    is_low := false }

/-- `AttackData::with_knockback`. -/
def AttackData.with_knockback (a : AttackData) (x y : Int) : AttackData :=
  { a with pushback_x := x, pushback_y := y }

/-- `AttackData::with_stun`. -/
def AttackData.with_stun (a : AttackData) (hitstun blockstun : Nat) : AttackData :=
  { a with hitstun := hitstun, blockstun := blockstun }

/-- `AttackData::unblockable`. -/
def AttackData.unblockable (a : AttackData) : AttackData :=
  { a with can_block := false }

/-- A collision box with properties (hitbox.rs `CollisionBox`). -/
structure CollisionBox where
  box_type : BoxType
  bounds : Rect
  owner : EntityId
  active : Bool
  attack_data : Option AttackData
deriving DecidableEq, Repr

/-- `CollisionBox::hitbox`. -/
def CollisionBox.hitbox (owner : EntityId) (bounds : Rect)
    (attack_data : AttackData) : CollisionBox :=
  ⟨BoxType.Hitbox, bounds, owner, true, some attack_data⟩

/-- `CollisionBox::hurtbox`. -/
def CollisionBox.hurtbox (owner : EntityId) (bounds : Rect) : CollisionBox :=
  ⟨BoxType.Hurtbox, bounds, owner, true, none⟩

/-- `CollisionBox::translate`. -/
def CollisionBox.translate (b : CollisionBox) (offset : Vec2) : CollisionBox :=
  { b with bounds := { b.bounds with x := b.bounds.x + offset.x, y := b.bounds.y + offset.y } }

/-- Result of a collision check (hitbox.rs `CollisionResult`). -/
structure CollisionResult where
  attacker : EntityId
  defender : EntityId
  attack_data : AttackData
deriving DecidableEq, Repr

/-- Per-frame collision scratch space (hitbox.rs `CollisionSystem`).
The Rust fixed arrays plus counts are lists; the add operations enforce capacity. -/
structure CollisionSystem where
  hitboxes : List CollisionBox
  hurtboxes : List CollisionBox
deriving DecidableEq, Repr

/-- `CollisionSystem::new`. -/
def CollisionSystem.new : CollisionSystem := ⟨[], []⟩

/-- `CollisionSystem::clear`. -/
def CollisionSystem.clear (_cs : CollisionSystem) : CollisionSystem := ⟨[], []⟩

/-- `CollisionSystem::add_hitbox`: append, silently dropping past capacity. -/
def CollisionSystem.add_hitbox (cs : CollisionSystem) (hitbox : CollisionBox) : CollisionSystem :=
  if cs.hitboxes.length < MAX_HITBOXES then { cs with hitboxes := cs.hitboxes ++ [hitbox] }
  else cs

/-- `CollisionSystem::add_hurtbox`: append, silently dropping past capacity. -/
def CollisionSystem.add_hurtbox (cs : CollisionSystem) (hurtbox : CollisionBox) : CollisionSystem :=
  if cs.hurtboxes.length < MAX_HURTBOXES then { cs with hurtboxes := cs.hurtboxes ++ [hurtbox] }
  else cs

/-- `CollisionSystem::check_collisions`: hitbox-major, hurtbox-minor cross product,
skipping inactive boxes, same-owner pairs, non-intersecting pairs and hitboxes
without attack data; at most `MAX_COLLISIONS_PER_FRAME` results are kept. -/
def CollisionSystem.check_collisions (cs : CollisionSystem) : List CollisionResult :=
  (cs.hitboxes.flatMap fun hitbox =>
    if hitbox.active then
      cs.hurtboxes.filterMap fun hurtbox =>
        if hurtbox.active && !(hitbox.owner == hurtbox.owner)
            && hitbox.bounds.intersects hurtbox.bounds then
          hitbox.attack_data.map fun attack_data =>
            ⟨hitbox.owner, hurtbox.owner, attack_data⟩
        else none
    else []).take MAX_COLLISIONS_PER_FRAME

/-! ## State machine (src/state.rs) -/

/-- Character state identifier (state.rs `StateId`).
`WalkBack` is used by entity.rs and engine.rs; its declaration is not in the
provided state.rs. Modelled from the spec: the state id for the backward-walk
state driven by backward directional holds. -/
inductive StateId where
  | Idle
  | Walk
  | WalkBack
  | Crouch
  | Jump
  | LightAttack
  | MediumAttack
  | HeavyAttack
  | SpecialMove
  | Hitstun
  | Blockstun
  | Knockdown
  | Custom (id : Nat)
deriving DecidableEq, Repr

/-- State type classification (state.rs `StateType`). -/
inductive StateType where
  | Normal
  | Attack
  | Hurt
  | Invincible
deriving DecidableEq, Repr

/-- Frame-based action within a state (state.rs `StateAction`). -/
inductive StateAction where
  | Hitbox (x y width height : Int) (attack : AttackData)
  | SetVelocity (x y : Int)
  | AddMomentum (x y : Int)
  | Transition (target : StateId)
  | none
deriving DecidableEq, Repr

/-- Frame data entry (state.rs `FrameData`). -/
structure FrameData where
  frame : Nat
  action : StateAction
deriving DecidableEq, Repr

/-- `FrameData::new`. -/
def FrameData.new (frame : Nat) (action : StateAction) : FrameData := ⟨frame, action⟩

/-- State definition with frame data (state.rs `State`).
The Rust fixed array `frame_data` plus `frame_data_count` is a list with capacity
enforced on insertion. -/
structure State where
  id : StateId
  state_type : StateType
  duration : Nat
  can_cancel : Bool
  frame_data : List FrameData
deriving DecidableEq, Repr

/-- `State::new`. -/
def State.new (id : StateId) (state_type : StateType) (duration : Nat) : State :=
  ⟨id, state_type, duration, false, []⟩

/-- `State::with_cancel`. -/
def State.with_cancel (s : State) : State := { s with can_cancel := true }

/-- `State::add_frame_data`: append if below capacity. -/
def State.add_frame_data (s : State) (data : FrameData) : State :=
  if s.frame_data.length < MAX_FRAME_DATA_PER_STATE then
    { s with frame_data := s.frame_data ++ [data] }
  else s

/-- `State::get_actions`: the actions recorded for the given frame, in registration
order, capped at `MAX_ACTIONS_PER_FRAME`. -/
def State.get_actions (s : State) (frame : Nat) : List StateAction :=
  ((s.frame_data.filter fun data => data.frame == frame).take MAX_ACTIONS_PER_FRAME).map
    fun data => data.action

/-- Per-entity state machine (state.rs `StateMachine`). -/
structure StateMachine where
  current_state : StateId
  state_frame : Nat
  states : List State
deriving DecidableEq, Repr

/-- `StateMachine::new`. -/
def StateMachine.new : StateMachine := ⟨StateId.Idle, 0, []⟩

/-- `StateMachine::register_state`: append if below capacity. -/
def StateMachine.register_state (sm : StateMachine) (state : State) : StateMachine :=
  if sm.states.length < MAX_STATES then { sm with states := sm.states ++ [state] }
  else sm

/-- `StateMachine::find_state`: linear scan by id. -/
def StateMachine.find_state (sm : StateMachine) (id : StateId) : Option State :=
  sm.states.find? fun s => s.id == id

/-- `StateMachine::transition`: set the id and reset the frame counter only when
the target differs from the current state. -/
def StateMachine.transition (sm : StateMachine) (new_state : StateId) : StateMachine :=
  if new_state ≠ sm.current_state then
    { sm with current_state := new_state, state_frame := 0 }
  else sm

/-- `StateMachine::can_cancel`. -/
def StateMachine.can_cancel (sm : StateMachine) : Bool :=
  ((sm.find_state sm.current_state).map fun s => s.can_cancel).getD false

/-- `StateMachine::advance_frame`: increment the within-state counter, then
auto-transition to idle if the registered duration is reached. -/
def StateMachine.advance_frame (sm : StateMachine) : StateMachine :=
  let sm := { sm with state_frame := sm.state_frame + 1 }
  match sm.find_state sm.current_state with
  | some state =>
    if sm.state_frame ≥ state.duration then sm.transition StateId.Idle else sm
  | Option.none => sm

/-- `StateMachine::get_current_actions`. -/
def StateMachine.get_current_actions (sm : StateMachine) : List StateAction :=
  match sm.find_state sm.current_state with
  | some state => state.get_actions sm.state_frame
  | Option.none => []

/-! ### State templates (state.rs `states` module) -/

namespace states

/-- `states::idle`. -/
def idle : State := State.new StateId.Idle StateType.Normal 1

/-- `states::walk`. -/
def walk : State :=
  (State.new StateId.Walk StateType.Normal 1).add_frame_data
    (FrameData.new 0 (StateAction.SetVelocity 300 0))

/-- Modelled from the spec: `states::walk_back` is registered by entity.rs but its
definition is missing from the provided state.rs. The spec says backward
directional holds drive a walk-back state; modelled as a normal one-frame state
mirroring `walk` with negated forward velocity. -/
def walk_back : State :=
  (State.new StateId.WalkBack StateType.Normal 1).add_frame_data
    (FrameData.new 0 (StateAction.SetVelocity (-300) 0))

/-- Modelled from the spec: `states::jump` is registered by entity.rs but its
definition is missing from the provided state.rs. The spec says pressing up while
grounded triggers a jump transition; modelled as a normal state applying an
upward velocity on its first frame. -/
def jump : State :=
  (State.new StateId.Jump StateType.Normal 30).add_frame_data
    (FrameData.new 0 (StateAction.SetVelocity 0 (-1200)))

/-- `states::light_attack`. -/
def light_attack : State :=
  ((State.new StateId.LightAttack StateType.Attack 18).with_cancel).add_frame_data
    (FrameData.new 5 (StateAction.Hitbox 15000 10000 12000 8000
      (((AttackData.new 50).with_stun 8 6).with_knockback 400 0)))

/-- `states::medium_attack`. -/
def medium_attack : State :=
  ((State.new StateId.MediumAttack StateType.Attack 24).with_cancel).add_frame_data
    (FrameData.new 8 (StateAction.Hitbox 18000 10000 15000 10000
      (((AttackData.new 100).with_stun 12 8).with_knockback 800 0)))

/-- `states::heavy_attack`. -/
def heavy_attack : State :=
  (State.new StateId.HeavyAttack StateType.Attack 36).add_frame_data
    (FrameData.new 12 (StateAction.Hitbox 20000 10000 18000 12000
      (((AttackData.new 200).with_stun 18 12).with_knockback 1500 (-500))))

/-- `states::hitstun`. -/
def hitstun (duration : Nat) : State :=
  State.new StateId.Hitstun StateType.Hurt duration

/-- `states::blockstun`. -/
def blockstun (duration : Nat) : State :=
  State.new StateId.Blockstun StateType.Hurt duration

end states

/-! ## Entity (src/entity.rs) -/

/-- Health tracking (entity.rs `Health`). -/
structure Health where
  current : Int
  maximum : Int
deriving DecidableEq, Repr

/-- `Health::new`. -/
def Health.new (maxHp : Int) : Health := ⟨maxHp, maxHp⟩

/-- `Health::take_damage`: subtract and clamp at zero. -/
def Health.take_damage (h : Health) (damage : Int) : Health :=
  { h with current := max (h.current - damage) 0 }

/-- `Health::is_alive`. -/
def Health.is_alive (h : Health) : Bool := decide (h.current > 0)

/-- Physics state (entity.rs `Physics`). -/
structure Physics where
  position : Vec2
  velocity : Vec2
  momentum : Vec2
  gravity : Int
  on_ground : Bool
deriving DecidableEq, Repr

/-- `Physics::new`. -/
def Physics.new (position : Vec2) : Physics :=
  ⟨position, Vec2.ZERO, Vec2.ZERO, GRAVITY, true⟩

/-- `Physics::update`: one frame of integration — apply momentum, decay momentum
by 90/100 with truncating integer division, apply velocity, add gravity when
airborne, clamp to the ground plane at y = 0, and reset velocity to zero. -/
def Physics.update (p : Physics) : Physics :=
  let p := { p with position := p.position.add p.momentum }
  let p :=
    { p with
      momentum :=
        ⟨Int.tdiv (p.momentum.x * MOMENTUM_DECAY_PERCENT) MOMENTUM_DECAY_DIVISOR,
         Int.tdiv (p.momentum.y * MOMENTUM_DECAY_PERCENT) MOMENTUM_DECAY_DIVISOR⟩ }
  let p := { p with position := p.position.add p.velocity }
  let p := if !p.on_ground then
      { p with velocity := ⟨p.velocity.x, p.velocity.y + p.gravity⟩ }
    else p
  let p := if p.position.y ≥ 0 then
      { p with
        position := ⟨p.position.x, 0⟩
        velocity := ⟨p.velocity.x, 0⟩
        momentum := ⟨p.momentum.x, 0⟩
        on_ground := true }
    else { p with on_ground := false }
  { p with velocity := Vec2.ZERO }

/-- `Physics::apply_knockback`: add to momentum, launch airborne on strong upward hits. -/
def Physics.apply_knockback (p : Physics) (x y : Int) : Physics :=
  let p := { p with momentum := ⟨p.momentum.x + x, p.momentum.y + y⟩ }
  if y < KNOCKBACK_THRESHOLD then { p with on_ground := false } else p

/-- Fighter entity (entity.rs `Entity`). -/
structure Entity where
  id : EntityId
  player_id : PlayerId
  facing : Facing
  health : Health
  physics : Physics
  state_machine : StateMachine
  hitstun_remaining : Nat
  blockstun_remaining : Nat
deriving DecidableEq, Repr

/-- `Entity::register_default_states` applied to a fresh machine:
the registration sequence in `Entity::new`. -/
def defaultStateMachine : StateMachine :=
  (((((((((StateMachine.new.register_state states.idle).register_state
    states.walk).register_state states.walk_back).register_state
    states.jump).register_state states.light_attack).register_state
    states.medium_attack).register_state states.heavy_attack).register_state
    (states.hitstun 20)).register_state (states.blockstun 15))

/-- `Entity::new`: player 1 faces right, others face left; health 1000;
default states registered. -/
def Entity.new (id : EntityId) (player_id : PlayerId) (position : Vec2) : Entity :=
  { id := id
    player_id := player_id
    facing := if player_id = 0 then Facing.Right else Facing.Left
    health := Health.new 1000
    physics := Physics.new position
    state_machine := defaultStateMachine
    hitstun_remaining := 0
    blockstun_remaining := 0 }

/-- `Entity::can_act`: no stun and (idle or cancelable state). -/
def Entity.can_act (e : Entity) : Bool :=
  decide (e.hitstun_remaining = 0) && decide (e.blockstun_remaining = 0) &&
    (e.state_machine.current_state == StateId.Idle || e.state_machine.can_cancel)

/-- The movement tail of `Entity::process_input` (entity.rs lines 212-243):
jump from idle/walk while grounded and pressing up, otherwise the directional
walk / walk-back / return-to-idle logic. -/
def Entity.process_movement (e : Entity) (current : InputState) : Entity :=
  let directionalCase :=
    match current.direction with
    | Direction.Forward | Direction.DownForward | Direction.UpForward =>
      if e.state_machine.current_state = StateId.Idle then
        { e with state_machine := e.state_machine.transition StateId.Walk }
      else e
    | Direction.Back | Direction.DownBack | Direction.UpBack =>
      if e.state_machine.current_state = StateId.Idle then
        { e with state_machine := e.state_machine.transition StateId.WalkBack }
      else e
    | _ =>
      if e.state_machine.current_state = StateId.Walk ∨
          e.state_machine.current_state = StateId.WalkBack then
        { e with state_machine := e.state_machine.transition StateId.Idle }
      else e
  if current.direction.is_up && e.physics.on_ground then
    if e.state_machine.current_state = StateId.Idle ∨
        e.state_machine.current_state = StateId.Walk then
      { e with state_machine := e.state_machine.transition StateId.Jump }
    else directionalCase
  else directionalCase

/-- `Entity::process_input`: the attack branch (gated by `can_act`, each branch
an early return) followed by the movement logic. The Rust early returns are the
if/else chain; a guarded attack branch that does not fire falls through to
movement exactly as in the source. -/
def Entity.process_input (e : Entity) (input : Option InputBuffer) : Entity :=
  match input with
  | Option.none => e
  | some input =>
    let current := input.current
    if e.can_act && input.button_just_pressed Button.Light then
      { e with state_machine := e.state_machine.transition StateId.LightAttack }
    else if e.can_act && input.button_just_pressed Button.Medium then
      { e with state_machine := e.state_machine.transition StateId.MediumAttack }
    else if e.can_act && input.button_just_pressed Button.Heavy then
      { e with state_machine := e.state_machine.transition StateId.HeavyAttack }
    else if e.can_act && (input.detect_qcf && input.button_just_pressed Button.Special) then
      { e with state_machine := e.state_machine.transition StateId.SpecialMove }
    else
      e.process_movement current

/-- One step of `Entity::execute_state_actions`'s loop body. -/
def Entity.apply_action (e : Entity) (action : StateAction) : Entity :=
  match action with
  | StateAction.SetVelocity x y =>
    { e with physics := { e.physics with velocity := ⟨x * e.facing.sign, y⟩ } }
  | StateAction.AddMomentum x y =>
    { e with
      physics :=
        { e.physics with
          momentum := ⟨e.physics.momentum.x + x * e.facing.sign, e.physics.momentum.y + y⟩ } }
  | StateAction.Transition target =>
    { e with state_machine := e.state_machine.transition target }
  | _ => e

/-- `Entity::execute_state_actions`: fetch the current frame's actions once,
then execute them in order. -/
def Entity.execute_state_actions (e : Entity) : Entity :=
  (e.state_machine.get_current_actions).foldl Entity.apply_action e

/-- `Entity::update`: stun decay, input processing when unstunned, state action
execution, state machine frame advance, then physics integration. -/
def Entity.update (e : Entity) (input : Option InputBuffer) : Entity :=
  let e :=
    if e.hitstun_remaining > 0 then
      let e := { e with hitstun_remaining := e.hitstun_remaining - 1 }
      if e.hitstun_remaining = 0 then
        { e with state_machine := e.state_machine.transition StateId.Idle }
      else e
    else e
  let e :=
    if e.blockstun_remaining > 0 then
      let e := { e with blockstun_remaining := e.blockstun_remaining - 1 }
      if e.blockstun_remaining = 0 then
        { e with state_machine := e.state_machine.transition StateId.Idle }
      else e
    else e
  let e :=
    if e.hitstun_remaining = 0 ∧ e.blockstun_remaining = 0 then
      e.process_input input
    else e
  let e := e.execute_state_actions
  let e := { e with state_machine := e.state_machine.advance_frame }
  { e with physics := e.physics.update }

/-- `Entity::get_hitboxes`: up to 4 boxes from the current frame's Hitbox actions,
mirrored for left facing, translated to world space. -/
def Entity.get_hitboxes (e : Entity) : List CollisionBox :=
  ((e.state_machine.get_current_actions).filterMap fun action =>
    match action with
    | StateAction.Hitbox x y width height attack =>
      let bounds := Rect.new x y width height
      let bounds :=
        if e.facing = Facing.Left then { bounds with x := -bounds.x - bounds.width }
        else bounds
      some ((CollisionBox.hitbox e.id bounds attack).translate e.physics.position)
    | _ => Option.none).take 4

/-- `Entity::get_hurtboxes`: the default body hurtbox at the entity position. -/
def Entity.get_hurtboxes (e : Entity) : List CollisionBox :=
  [(CollisionBox.hurtbox e.id (Rect.new 0 0 10000 25000)).translate e.physics.position]

/-- `Entity::take_hit`: blocked hits give blockstun and halved, horizontal-only
pushback; unblocked hits deal damage, hitstun and full pushback. -/
def Entity.take_hit (e : Entity) (collision : CollisionResult) (is_blocking : Bool) : Entity :=
  let attack := collision.attack_data
  if is_blocking && attack.can_block then
    let e := { e with blockstun_remaining := attack.blockstun }
    let e := { e with state_machine := e.state_machine.transition StateId.Blockstun }
    { e with
      physics := e.physics.apply_knockback (Int.tdiv attack.pushback_x 2 * -e.facing.sign) 0 }
  else
    let e := { e with health := e.health.take_damage attack.damage }
    let e := { e with hitstun_remaining := attack.hitstun }
    let e := { e with state_machine := e.state_machine.transition StateId.Hitstun }
    { e with
      physics := e.physics.apply_knockback (attack.pushback_x * -e.facing.sign) attack.pushback_y }

/-- `Entity::update_facing`: face the opponent; ties keep the old facing. -/
def Entity.update_facing (e : Entity) (opponent_pos : Vec2) : Entity :=
  if opponent_pos.x > e.physics.position.x then { e with facing := Facing.Right }
  else if opponent_pos.x < e.physics.position.x then { e with facing := Facing.Left }
  else e

/-! ## Engine (src/engine.rs) -/

/-- Game result (engine.rs `GameResult`). -/
inductive GameResult where
  | InProgress
  | Player1Wins
  | Player2Wins
  | Draw
deriving DecidableEq, Repr

/-- Map a list while passing the element index to the function, starting at `i0`.
Used to model the Rust indexed loop over the entity array. -/
def mapWithIndex {α : Type} (f : Nat → α → α) : Nat → List α → List α
  | _, [] => []
  | i, a :: as => f i a :: mapWithIndex f (i + 1) as

/-- Main engine state (engine.rs `Engine`). The Rust fixed array
`[Option<Entity>; MAX_ENTITIES]` is a list of length 4. -/
structure Engine where
  frame : Nat
  entities : List (Option Entity)
  entity_count : Nat
  collision_system : CollisionSystem
  input_manager : InputManager
  game_result : GameResult
deriving DecidableEq, Repr

/-- `Engine::new`. -/
def Engine.new : Engine :=
  { frame := 0
    entities := [Option.none, Option.none, Option.none, Option.none]
    entity_count := 0
    collision_system := CollisionSystem.new
    input_manager := InputManager.new
    game_result := GameResult.InProgress }

/-- `Engine::init_match`: place the two players, reset frame and result.
Slots 2 and 3 and the input buffers are left as they are, as in the source. -/
def Engine.init_match (e : Engine) : Engine :=
  let p1 := Entity.new 0 0 ⟨-50000, 0⟩
  let p2 := Entity.new 1 1 ⟨50000, 0⟩
  { e with
    entities := (e.entities.set 0 (some p1)).set 1 (some p2)
    entity_count := 2
    frame := 0
    game_result := GameResult.InProgress }

/-- `Engine::update_entities`: update each live entity slot below `entity_count`
with its player's input buffer. -/
def Engine.update_entities (e : Engine) : Engine :=
  { e with
    entities := mapWithIndex
      (fun i oe =>
        if i < e.entity_count then
          oe.map fun ent => ent.update (e.input_manager.get_player_input ent.player_id)
        else oe)
      0 e.entities }

/-- `Engine::detect_collisions`: clear the scratch space, then gather all
hitboxes and hurtboxes of the live entities. -/
def Engine.detect_collisions (e : Engine) : Engine :=
  let cs := e.collision_system.clear
  let cs := (e.entities.take e.entity_count).foldl
    (fun cs oe =>
      match oe with
      | some ent =>
        let cs := ent.get_hitboxes.foldl CollisionSystem.add_hitbox cs
        ent.get_hurtboxes.foldl CollisionSystem.add_hurtbox cs
      | Option.none => cs)
    cs
  { e with collision_system := cs }

/-- `Engine::find_entity_index`: first live slot below `entity_count` holding
the given entity id. -/
def Engine.find_entity_index (e : Engine) (id : EntityId) : Option Nat :=
  (((e.entities.take e.entity_count).enum.find? fun p =>
    match p.2 with
    | some ent => ent.id == id
    | Option.none => false).map fun p => p.1)

/-- `Engine::apply_hit`: find the defender, read its blocking input
(most recent direction is back), and apply the hit. -/
def Engine.apply_hit (e : Engine) (collision : CollisionResult) : Engine :=
  match e.find_entity_index collision.defender with
  | Option.none => e
  | some defender_idx =>
    let is_blocking :=
      match e.entities.getD defender_idx Option.none with
      | some defender =>
        match e.input_manager.get_player_input defender.player_id with
        | some input => (input.current).direction.is_back
        | Option.none => false
      | Option.none => false
    match e.entities.getD defender_idx Option.none with
    | some defender =>
      { e with
        entities :=
          e.entities.set defender_idx (some (defender.take_hit collision is_blocking)) }
    | Option.none => e

/-- `Engine::resolve_hits`: apply every collision result in order. -/
def Engine.resolve_hits (e : Engine) : Engine :=
  (e.collision_system.check_collisions).foldl Engine.apply_hit e

/-- `Engine::check_win_conditions`: recompute the outcome from both players' health. -/
def Engine.check_win_conditions (e : Engine) : Engine :=
  if e.entity_count < 2 then e
  else
    let p1_alive := ((e.entities.getD 0 Option.none).map fun ent => ent.health.is_alive).getD false
    let p2_alive := ((e.entities.getD 1 Option.none).map fun ent => ent.health.is_alive).getD false
    { e with
      game_result :=
        match p1_alive, p2_alive with
        | true, true => GameResult.InProgress
        | true, false => GameResult.Player1Wins
        | false, true => GameResult.Player2Wins
        | false, false => GameResult.Draw }

/-- `Engine::update_facing`: both players face each other, using the positions
read before either is updated. -/
def Engine.update_facing (e : Engine) : Engine :=
  if e.entity_count ≥ 2 then
    let p1_pos := (e.entities.getD 0 Option.none).map fun ent => ent.physics.position
    let p2_pos := (e.entities.getD 1 Option.none).map fun ent => ent.physics.position
    let e :=
      match e.entities.getD 0 Option.none, p2_pos with
      | some p1, some pos =>
        { e with entities := e.entities.set 0 (some (p1.update_facing pos)) }
      | _, _ => e
    match e.entities.getD 1 Option.none, p1_pos with
    | some p2, some pos =>
      { e with entities := e.entities.set 1 (some (p2.update_facing pos)) }
    | _, _ => e
  else e

/-- `Engine::tick`: the six-phase frame step; a no-op once the game has concluded. -/
def Engine.tick (e : Engine) (p1_input p2_input : InputState) : Engine :=
  if e.game_result ≠ GameResult.InProgress then e
  else
    let e := { e with input_manager := e.input_manager.update_player_input 0 p1_input }
    let e := { e with input_manager := e.input_manager.update_player_input 1 p2_input }
    let e := e.update_entities
    let e := e.detect_collisions
    let e := e.resolve_hits
    let e := e.check_win_conditions
    let e := e.update_facing
    { e with frame := e.frame + 1 }

/-- `Engine::get_player_entity`. -/
def Engine.get_player_entity (e : Engine) (player : PlayerId) : Option Entity :=
  (e.entities.take e.entity_count).findSome? fun oe =>
    match oe with
    | some ent => if ent.player_id = player then some ent else Option.none
    | Option.none => Option.none

/-- `state_to_string` (engine.rs). -/
def state_to_string : StateId → String
  | StateId.Idle => "Idle"
  | StateId.Walk => "Walk"
  | StateId.WalkBack => "WalkBack"
  | StateId.Crouch => "Crouch"
  | StateId.Jump => "Jump"
  | StateId.LightAttack => "Light"
  | StateId.MediumAttack => "Medium"
  | StateId.HeavyAttack => "Heavy"
  | StateId.SpecialMove => "Special"
  | StateId.Hitstun => "Hit"
  | StateId.Blockstun => "Block"
  | StateId.Knockdown => "Down"
  | StateId.Custom _ => "Custom"

/-- Game state snapshot (engine.rs `GameState`): the externally observable
frame, positions, health, state names, facings and outcome. -/
structure GameState where
  frame : Nat
  p1_pos : Vec2
  p1_health : Int
  p1_state : String
  p1_facing : Facing
  p2_pos : Vec2
  p2_health : Int
  p2_state : String
  p2_facing : Facing
  result : GameResult
deriving DecidableEq, Repr

/-- `Engine::get_state`. -/
def Engine.get_state (e : Engine) : GameState :=
  let p1 := e.get_player_entity 0
  let p2 := e.get_player_entity 1
  { frame := e.frame
    p1_pos := (p1.map fun ent => ent.physics.position).getD Vec2.ZERO
    p1_health := (p1.map fun ent => ent.health.current).getD 0
    p1_state := (p1.map fun ent => state_to_string ent.state_machine.current_state).getD "Unknown"
    p1_facing := (p1.map fun ent => ent.facing).getD Facing.Right
    p2_pos := (p2.map fun ent => ent.physics.position).getD Vec2.ZERO
    p2_health := (p2.map fun ent => ent.health.current).getD 0
    p2_state := (p2.map fun ent => state_to_string ent.state_machine.current_state).getD "Unknown"
    p2_facing := (p2.map fun ent => ent.facing).getD Facing.Left
    result := e.game_result }

/-- Run the engine over an ordered sequence of two-player input pairs. -/
def Engine.run (e : Engine) (inputs : List (InputState × InputState)) : Engine :=
  inputs.foldl (fun s p => s.tick p.1 p.2) e

/-- The frame-by-frame state trajectory: the initial state followed by the state
after each tick of the input sequence. -/
def Engine.trajectory (e : Engine) (inputs : List (InputState × InputState)) : List Engine :=
  inputs.scanl (fun s p => s.tick p.1 p.2) e

/-! ## Derived definitions used by the verification -/

/-- Magnitude of the knockback momentum, as the sum of the absolute values of
its components. -/
def momentumMag (p : Physics) : Nat :=
  p.momentum.x.natAbs + p.momentum.y.natAbs

/-- An input snapshot holding only a direction, no buttons. -/
def dirInput (d : Direction) : InputState :=
  { InputState.neutral with direction := d }

/-- An input buffer whose every slot is neutral, at an arbitrary write cursor. -/
def allNeutralBuffer (wi : Nat) (f : Facing) : InputBuffer :=
  ⟨List.replicate INPUT_BUFFER_SIZE InputState.neutral, wi, f⟩

/-- The player entity of a freshly initialized match after `n` idle frames:
only the within-state frame counter differs from the fresh entity. -/
def idlePlayer (id : Nat) (pos : Vec2) (n : Nat) : Entity :=
  { Entity.new id id pos with
    state_machine := { defaultStateMachine with state_frame := n } }

/-- The collision scratch state after a tick in which both idle players
contributed only their body hurtboxes. -/
def neutralCS : CollisionSystem :=
  ⟨[],
   [⟨BoxType.Hurtbox, ⟨-50000, 0, 10000, 25000⟩, 0, true, Option.none⟩,
    ⟨BoxType.Hurtbox, ⟨50000, 0, 10000, 25000⟩, 1, true, Option.none⟩]⟩

/-- Closed form of the engine state after `n` neutral-input ticks from a
freshly initialized match. -/
def neutralEngine (n : Nat) : Engine :=
  { frame := n
    entities := [some (idlePlayer 0 ⟨-50000, 0⟩ n), some (idlePlayer 1 ⟨50000, 0⟩ n),
      Option.none, Option.none]
    entity_count := 2
    collision_system := if n = 0 then CollisionSystem.new else neutralCS
    input_manager :=
      ⟨allNeutralBuffer (n % INPUT_BUFFER_SIZE) Facing.Right,
       allNeutralBuffer (n % INPUT_BUFFER_SIZE) Facing.Left⟩
    game_result := GameResult.InProgress }

/-- Intermediate engine shape during a neutral-input tick: frame `fr`, both idle
players at within-state frame `m`, input cursors at `wi`, scratch space `cs`. -/
def neutralStage (fr m wi : Nat) (cs : CollisionSystem) : Engine :=
  { frame := fr
    entities := [some (idlePlayer 0 ⟨-50000, 0⟩ m), some (idlePlayer 1 ⟨50000, 0⟩ m),
      Option.none, Option.none]
    entity_count := 2
    collision_system := cs
    input_manager := ⟨allNeutralBuffer wi Facing.Right, allNeutralBuffer wi Facing.Left⟩
    game_result := GameResult.InProgress }

/-- A state action deals nonnegative damage if it spawns a hitbox. -/
def actionDamageOK : StateAction → Bool
  | StateAction.Hitbox _ _ _ _ attack => decide (0 ≤ attack.damage)
  | _ => true

/-- All hitbox-spawning frame actions of a state deal nonnegative damage. -/
def stateOK (s : State) : Prop :=
  ∀ fd ∈ s.frame_data, actionDamageOK fd.action = true

/-- All registered states of a machine satisfy `stateOK`. -/
def smOK (sm : StateMachine) : Prop :=
  ∀ s ∈ sm.states, stateOK s

/-- The health invariant: `0 ≤ current ≤ maximum`. -/
def healthInv (h : Health) : Prop :=
  0 ≤ h.current ∧ h.current ≤ h.maximum

/-- Entity invariant: health in range and a damage-sane state registry. -/
def entOK (e : Entity) : Prop :=
  healthInv e.health ∧ smOK e.state_machine

/-- Engine invariant: every live entity satisfies `entOK`. -/
def engineOK (e : Engine) : Prop :=
  ∀ oe ∈ e.entities, ∀ ent, oe = some ent → entOK ent

/-- A collision box's attack data, if any, deals nonnegative damage. -/
def hitboxOK (hb : CollisionBox) : Prop :=
  ∀ ad, hb.attack_data = some ad → 0 ≤ ad.damage

/-- All gathered hitboxes satisfy `hitboxOK`. -/
def csOK (cs : CollisionSystem) : Prop :=
  ∀ hb ∈ cs.hitboxes, hitboxOK hb

/-! ## Theorems -/

/-- `Rect::intersects` unfolded to the four strict edge comparisons. -/
theorem Rect.intersects_iff (r1 r2 : Rect) :
    r1.intersects r2 = true ↔
      (r1.left < r2.right ∧ r2.left < r1.right ∧ r1.top < r2.bottom ∧ r2.top < r1.bottom) := by
  simp only [Rect.intersects, Bool.and_eq_true, decide_eq_true_eq, gt_iff_lt]
  tauto

/-- C4: `Rect::intersects` is a strict AABB test — it holds iff each rectangle's
min edge is strictly less than the other's max edge on both axes; it is
symmetric; edge-touching `Rect(0,0,10,10)` and `Rect(10,0,10,10)` do not
intersect, while `Rect(0,0,10,10)` and `Rect(5,5,10,10)` do. -/
theorem rect_intersects_strict_aabb :
    (∀ r1 r2 : Rect, r1.intersects r2 = true ↔
      (r1.left < r2.right ∧ r2.left < r1.right ∧ r1.top < r2.bottom ∧ r2.top < r1.bottom)) ∧
    (∀ r1 r2 : Rect, r1.intersects r2 = r2.intersects r1) ∧
    (Rect.new 0 0 10 10).intersects (Rect.new 10 0 10 10) = false ∧
    (Rect.new 0 0 10 10).intersects (Rect.new 5 5 10 10) = true := by
  refine ⟨Rect.intersects_iff, ?_, by decide, by decide⟩
  intro r1 r2
  rw [Bool.eq_iff_iff, Rect.intersects_iff, Rect.intersects_iff]
  tauto

/-- C6: quarter-circle-forward detection is gapless at the matched alignment —
pushing Down, Neutral, DownForward, Neutral, Forward into a fresh buffer does
not trigger `detect_qcf`, while pushing Down, DownForward, Forward on
consecutive frames does. -/
theorem detect_qcf_gapless :
    (((((((InputBuffer.new Facing.Right).push (dirInput Direction.Down)).push
        InputState.neutral).push (dirInput Direction.DownForward)).push
        InputState.neutral).push (dirInput Direction.Forward)).detect_qcf = false) ∧
    (((((InputBuffer.new Facing.Right).push (dirInput Direction.Down)).push
        (dirInput Direction.DownForward)).push
        (dirInput Direction.Forward)).detect_qcf = true) := by
  decide

/-- C3: once the game result is not `InProgress`, `Engine::tick` is a no-op —
the entire engine state is returned unchanged for every pair of inputs. -/
theorem tick_game_over_noop (e : Engine) (p1_input p2_input : InputState)
    (h : e.game_result ≠ GameResult.InProgress) :
    e.tick p1_input p2_input = e := by
  simp [Engine.tick, h]

/-- Witness for C3 at a concluded match. -/
theorem tick_game_over_noop_witness :
    ({ Engine.new with game_result := GameResult.Draw } : Engine).game_result ≠
      GameResult.InProgress ∧
    ({ Engine.new with game_result := GameResult.Draw } : Engine).tick
      InputState.neutral InputState.neutral =
      { Engine.new with game_result := GameResult.Draw } :=
  ⟨by decide,
   tick_game_over_noop { Engine.new with game_result := GameResult.Draw }
     InputState.neutral InputState.neutral (by decide)⟩

/-- C1: the engine is deterministic — two runs from equal initialized match
states, fed the same ordered input sequence, produce identical frame-by-frame
state trajectories and identical observable snapshots (positions, health,
state names, facing, outcome). -/
theorem tick_deterministic (e1 e2 : Engine) (inputs : List (InputState × InputState))
    (h : e1.init_match = e2.init_match) :
    e1.init_match.trajectory inputs = e2.init_match.trajectory inputs ∧
    (e1.init_match.trajectory inputs).map Engine.get_state =
      (e2.init_match.trajectory inputs).map Engine.get_state := by
  rw [h]
  exact ⟨rfl, rfl⟩

/-- Witness for C1 on a one-frame run. -/
theorem tick_deterministic_witness :
    Engine.new.init_match = Engine.new.init_match ∧
    (Engine.new.init_match.trajectory [(InputState.neutral, InputState.neutral)] =
      Engine.new.init_match.trajectory [(InputState.neutral, InputState.neutral)] ∧
    (Engine.new.init_match.trajectory
        [(InputState.neutral, InputState.neutral)]).map Engine.get_state =
      (Engine.new.init_match.trajectory
        [(InputState.neutral, InputState.neutral)]).map Engine.get_state) :=
  ⟨rfl, tick_deterministic Engine.new Engine.new
    [(InputState.neutral, InputState.neutral)] rfl⟩

/-- After `StateMachine::transition`, the current state is the target,
whether or not a reset happened. -/
theorem StateMachine.transition_current_state (sm : StateMachine) (t : StateId) :
    (sm.transition t).current_state = t := by
  unfold StateMachine.transition
  split_ifs with h
  · rfl
  · push_neg at h
    exact h.symm

/-- `StateMachine::transition` never changes the registered states. -/
theorem StateMachine.transition_states (sm : StateMachine) (t : StateId) :
    (sm.transition t).states = sm.states := by
  unfold StateMachine.transition
  split_ifs <;> rfl

/-- C5: applying a collision result to a blocking defender — when the attack is
blockable the defender gets blockstun (not hitstun), unchanged health, and half
the horizontal pushback with zero vertical pushback, sign flipped by facing;
when the attack is unblockable the same blocking input still yields damage,
hitstun, and full horizontal and vertical pushback. -/
theorem take_hit_block_vs_unblockable (ent : Entity) (c1 c2 : CollisionResult)
    (hb : c1.attack_data.can_block = true) (hu : c2.attack_data.can_block = false) :
    ((ent.take_hit c1 true).blockstun_remaining = c1.attack_data.blockstun ∧
     (ent.take_hit c1 true).state_machine.current_state = StateId.Blockstun ∧
     (ent.take_hit c1 true).hitstun_remaining = ent.hitstun_remaining ∧
     (ent.take_hit c1 true).health = ent.health ∧
     (ent.take_hit c1 true).physics.momentum.x =
       ent.physics.momentum.x + Int.tdiv c1.attack_data.pushback_x 2 * -ent.facing.sign ∧
     (ent.take_hit c1 true).physics.momentum.y = ent.physics.momentum.y) ∧
    ((ent.take_hit c2 true).health.current =
       max (ent.health.current - c2.attack_data.damage) 0 ∧
     (ent.take_hit c2 true).hitstun_remaining = c2.attack_data.hitstun ∧
     (ent.take_hit c2 true).blockstun_remaining = ent.blockstun_remaining ∧
     (ent.take_hit c2 true).state_machine.current_state = StateId.Hitstun ∧
     (ent.take_hit c2 true).physics.momentum.x =
       ent.physics.momentum.x + c2.attack_data.pushback_x * -ent.facing.sign ∧
     (ent.take_hit c2 true).physics.momentum.y =
       ent.physics.momentum.y + c2.attack_data.pushback_y) := by
  constructor
  · have hcond : (true && c1.attack_data.can_block) = true := by rw [hb]; rfl
    simp only [Entity.take_hit, hcond, if_true, Physics.apply_knockback]
    rw [if_neg (by norm_num [KNOCKBACK_THRESHOLD] : ¬((0 : Int) < KNOCKBACK_THRESHOLD))]
    simp [StateMachine.transition_current_state]
  · have hcond : (true && c2.attack_data.can_block) = false := by rw [hu]; rfl
    simp only [Entity.take_hit, hcond, Bool.false_eq_true, if_false, Physics.apply_knockback,
      Health.take_damage]
    split_ifs <;> simp [StateMachine.transition_current_state]

/-- Witness for C5: a blocked default attack yields its blockstun of 8, and the
same attack made unblockable deals its damage through the block. -/
theorem take_hit_block_vs_unblockable_witness :
    (⟨0, 1, AttackData.new 50⟩ : CollisionResult).attack_data.can_block = true ∧
    (⟨0, 1, (AttackData.new 50).unblockable⟩ : CollisionResult).attack_data.can_block = false ∧
    ((Entity.new 1 1 ⟨0, 0⟩).take_hit ⟨0, 1, AttackData.new 50⟩ true).blockstun_remaining = 8 ∧
    ((Entity.new 1 1 ⟨0, 0⟩).take_hit
      ⟨0, 1, (AttackData.new 50).unblockable⟩ true).health.current = 950 := by
  refine ⟨by decide, by decide, ?_, ?_⟩
  · have h := (take_hit_block_vs_unblockable (Entity.new 1 1 ⟨0, 0⟩)
      ⟨0, 1, AttackData.new 50⟩ ⟨0, 1, (AttackData.new 50).unblockable⟩ rfl rfl).1.1
    simpa using h
  · have h := (take_hit_block_vs_unblockable (Entity.new 1 1 ⟨0, 0⟩)
      ⟨0, 1, AttackData.new 50⟩ ⟨0, 1, (AttackData.new 50).unblockable⟩ rfl rfl).2.1
    simpa using h

/-- Below the registered duration, iterating `advance_frame` just counts frames
within the state. -/
theorem advance_frame_iterate_below (states : List State) (st : State) (D : Nat)
    (hfind : states.find? (fun s => s.id == st.id) = some st) (hdur : st.duration = D) :
    ∀ j, j < D →
      (StateMachine.advance_frame)^[j] ⟨st.id, 0, states⟩ = ⟨st.id, j, states⟩ := by
  intro j
  induction j with
  | zero => intro _; rfl
  | succ k ih =>
    intro hlt
    rw [Function.iterate_succ_apply', ih (Nat.lt_of_succ_lt hlt)]
    unfold StateMachine.advance_frame StateMachine.find_state
    simp only [hfind]
    rw [if_neg]
    omega

/-- C8: for every state registered with duration `D ≥ 1`, transitioning into it
from a different state and advancing the machine `D` frames yields the idle
state id (here: exactly at the `D`-th advance, hence on or before it). -/
theorem state_auto_expiry (sm : StateMachine) (st : State) (D : Nat)
    (hfind : sm.find_state st.id = some st) (hdur : st.duration = D) (hD : 1 ≤ D)
    (hcur : sm.current_state ≠ st.id) :
    ((StateMachine.advance_frame)^[D] (sm.transition st.id)).current_state = StateId.Idle := by
  have hm0 : sm.transition st.id = (⟨st.id, 0, sm.states⟩ : StateMachine) := by
    unfold StateMachine.transition
    rw [if_pos (Ne.symm hcur)]
  obtain ⟨k, rfl⟩ : ∃ k, D = k + 1 := ⟨D - 1, by omega⟩
  rw [hm0, Function.iterate_succ_apply',
    advance_frame_iterate_below sm.states st (k + 1) hfind hdur k (Nat.lt_succ_self k)]
  have hfind' : List.find? (fun s => s.id == st.id) sm.states = some st := hfind
  unfold StateMachine.advance_frame StateMachine.find_state
  simp only [hfind']
  rw [if_pos (by omega)]
  exact StateMachine.transition_current_state _ _

/-- Witness for C8: the default registry's light attack (duration 18) expires
back to idle after 18 advances. -/
theorem state_auto_expiry_witness :
    defaultStateMachine.find_state states.light_attack.id = some states.light_attack ∧
    states.light_attack.duration = 18 ∧
    defaultStateMachine.current_state ≠ states.light_attack.id ∧
    ((StateMachine.advance_frame)^[18]
      (defaultStateMachine.transition states.light_attack.id)).current_state = StateId.Idle :=
  ⟨by decide, by decide, by decide,
   state_auto_expiry defaultStateMachine states.light_attack 18
     (by decide) (by decide) (by decide) (by decide)⟩

/-- One decay step never increases a momentum component's magnitude. -/
theorem tdiv_decay_le (a : Int) :
    (Int.tdiv (a * MOMENTUM_DECAY_PERCENT) MOMENTUM_DECAY_DIVISOR).natAbs ≤ a.natAbs := by
  rw [MOMENTUM_DECAY_PERCENT, MOMENTUM_DECAY_DIVISOR, Int.natAbs_tdiv, Int.natAbs_mul]
  show a.natAbs * (90 : Int).natAbs / (100 : Int).natAbs ≤ a.natAbs
  norm_num
  omega

/-- One decay step strictly shrinks a nonzero momentum component's magnitude. -/
theorem tdiv_decay_lt (a : Int) (h : a ≠ 0) :
    (Int.tdiv (a * MOMENTUM_DECAY_PERCENT) MOMENTUM_DECAY_DIVISOR).natAbs < a.natAbs := by
  rw [MOMENTUM_DECAY_PERCENT, MOMENTUM_DECAY_DIVISOR, Int.natAbs_tdiv, Int.natAbs_mul]
  show a.natAbs * (90 : Int).natAbs / (100 : Int).natAbs < a.natAbs
  norm_num
  have hm : a.natAbs ≠ 0 := Int.natAbs_ne_zero.mpr h
  omega

/-- After `Physics::update`, the momentum components are the decayed values,
except that the vertical component may have been clamped to zero by the ground. -/
theorem Physics.update_momentum (p : Physics) :
    (Physics.update p).momentum.x =
      Int.tdiv (p.momentum.x * MOMENTUM_DECAY_PERCENT) MOMENTUM_DECAY_DIVISOR ∧
    ((Physics.update p).momentum.y =
       Int.tdiv (p.momentum.y * MOMENTUM_DECAY_PERCENT) MOMENTUM_DECAY_DIVISOR ∨
     (Physics.update p).momentum.y = 0) := by
  simp only [Physics.update]
  split_ifs <;> simp

/-- `Physics::update` strictly shrinks a nonzero momentum magnitude. -/
theorem momentumMag_update_lt (p : Physics) (h : momentumMag p ≠ 0) :
    momentumMag (Physics.update p) < momentumMag p := by
  obtain ⟨hx, hy⟩ := Physics.update_momentum p
  have h2 := tdiv_decay_le p.momentum.y
  unfold momentumMag at *
  rw [hx]
  rcases eq_or_ne p.momentum.x 0 with hx0 | hx0
  · have hy0 : p.momentum.y ≠ 0 := by
      intro hc
      apply h
      rw [hx0, hc]
      rfl
    have hyabs : p.momentum.y.natAbs ≠ 0 := Int.natAbs_ne_zero.mpr hy0
    have hxval : (Int.tdiv (p.momentum.x * MOMENTUM_DECAY_PERCENT)
        MOMENTUM_DECAY_DIVISOR).natAbs = 0 := by
      rw [hx0, zero_mul, Int.zero_tdiv]
      rfl
    have hylt := tdiv_decay_lt p.momentum.y hy0
    rcases hy with hy | hy <;> rw [hy]
    · omega
    · simp only [Int.natAbs_zero]
      omega
  · have h1 := tdiv_decay_lt p.momentum.x hx0
    rcases hy with hy | hy <;> rw [hy]
    · omega
    · simp only [Int.natAbs_zero]
      omega

/-- `Physics::update` keeps a zero momentum magnitude at zero. -/
theorem momentumMag_update_zero (p : Physics) (h : momentumMag p = 0) :
    momentumMag (Physics.update p) = 0 := by
  obtain ⟨hx, hy⟩ := Physics.update_momentum p
  unfold momentumMag at *
  have hx0 : p.momentum.x = 0 := by
    have := Int.natAbs_eq_zero.mp (by omega : p.momentum.x.natAbs = 0)
    exact this
  have hy0 : p.momentum.y = 0 := by
    have := Int.natAbs_eq_zero.mp (by omega : p.momentum.y.natAbs = 0)
    exact this
  rw [hx, hx0, zero_mul, Int.zero_tdiv]
  rcases hy with hyv | hyv <;> rw [hyv] <;> simp [hy0]

/-- Iterating `Physics::update` at least `momentumMag p` times kills the momentum. -/
theorem momentumMag_iterate_zero :
    ∀ (k : Nat) (p : Physics), momentumMag p ≤ k →
      momentumMag (Physics.update^[k] p) = 0 := by
  intro k
  induction k with
  | zero =>
    intro p hp
    simpa using Nat.le_zero.mp hp
  | succ n ih =>
    intro p hp
    rw [Function.iterate_succ_apply]
    rcases eq_or_ne (momentumMag p) 0 with h0 | h0
    · exact ih _ (by have := momentumMag_update_zero p h0; omega)
    · exact ih _ (by have := momentumMag_update_lt p h0; omega)

/-- C9: after a single knockback impulse and no further hits, the momentum
magnitude strictly decreases on every subsequent `Physics::update` while it is
nonzero, and reaches zero (hence falls below any positive epsilon) within a
number of frames bounded by the initial magnitude, a bound determined by the
90/100 truncating-division decay; this covers positive and negative momentum
alike. -/
theorem momentum_decay_convergence (p0 : Physics) (x y : Int) :
    (∀ k : Nat, momentumMag (Physics.update^[k] (p0.apply_knockback x y)) ≠ 0 →
      momentumMag (Physics.update^[k + 1] (p0.apply_knockback x y)) <
        momentumMag (Physics.update^[k] (p0.apply_knockback x y))) ∧
    momentumMag (Physics.update^[momentumMag (p0.apply_knockback x y)]
      (p0.apply_knockback x y)) = 0 := by
  constructor
  · intro k hk
    rw [Function.iterate_succ_apply']
    exact momentumMag_update_lt _ hk
  · exact momentumMag_iterate_zero _ _ (Nat.le_refl _)

/-- Witness for C9: a horizontal impulse of 5 decays strictly on the first
frame and is extinguished within 5 frames. -/
theorem momentum_decay_convergence_witness :
    momentumMag (Physics.update^[0] ((Physics.new ⟨0, 0⟩).apply_knockback 5 0)) ≠ 0 ∧
    momentumMag (Physics.update^[0 + 1] ((Physics.new ⟨0, 0⟩).apply_knockback 5 0)) <
      momentumMag (Physics.update^[0] ((Physics.new ⟨0, 0⟩).apply_knockback 5 0)) ∧
    momentumMag (Physics.update^[momentumMag ((Physics.new ⟨0, 0⟩).apply_knockback 5 0)]
      ((Physics.new ⟨0, 0⟩).apply_knockback 5 0)) = 0 :=
  ⟨by decide, (momentum_decay_convergence (Physics.new ⟨0, 0⟩) 5 0).1 0 (by decide),
   (momentum_decay_convergence (Physics.new ⟨0, 0⟩) 5 0).2⟩

/-- C10: `Physics::update` is independent of the gravity field — two physics
states differing only in gravity yield identical position, momentum, velocity
and grounded flag after one update, because gravity feeds only a velocity
component that is reset before it can ever reach the position. -/
theorem physics_update_gravity_independent (p : Physics) (g : Int) :
    (Physics.update { p with gravity := g }).position = (Physics.update p).position ∧
    (Physics.update { p with gravity := g }).momentum = (Physics.update p).momentum ∧
    (Physics.update { p with gravity := g }).velocity = (Physics.update p).velocity ∧
    (Physics.update { p with gravity := g }).on_ground = (Physics.update p).on_ground := by
  simp only [Physics.update]
  split_ifs <;> simp_all


/-! ### Neutral-input runs (C7) -/

/-- `getD` on a replicated list with the element as default is constant. -/
theorem getD_replicate {α : Type} (a : α) :
    ∀ (n i : Nat), (List.replicate n a).getD i a = a := by
  intro n
  induction n with
  | zero => intro i; cases i <;> rfl
  | succ m ih =>
    intro i
    cases i with
    | zero => rfl
    | succ j => simp only [List.replicate, List.getD_cons_succ]; exact ih j

/-- Writing the replicated element back into a replicated list is the identity. -/
theorem set_replicate {α : Type} (a : α) :
    ∀ (n i : Nat), (List.replicate n a).set i a = List.replicate n a := by
  intro n
  induction n with
  | zero => intro i; rfl
  | succ m ih =>
    intro i
    cases i with
    | zero => rfl
    | succ j => simp only [List.replicate, List.set_cons_succ]; rw [ih j]

/-- Pushing neutral input into an all-neutral buffer only moves the cursor. -/
theorem allNeutral_push (wi : Nat) (f : Facing) :
    (allNeutralBuffer wi f).push InputState.neutral =
      allNeutralBuffer ((wi + 1) % INPUT_BUFFER_SIZE) f := by
  simp [InputBuffer.push, allNeutralBuffer, set_replicate]

/-- The most recent snapshot of an all-neutral buffer is neutral. -/
theorem allNeutral_current (wi : Nat) (f : Facing) :
    (allNeutralBuffer wi f).current = InputState.neutral := by
  simp [InputBuffer.current, allNeutralBuffer, getD_replicate]

/-- No button is pressed in the neutral snapshot. -/
theorem neutral_button_pressed (b : Button) :
    InputState.neutral.button_pressed b = false := by
  cases b <;> rfl

/-- No button is edge-detected on an all-neutral buffer. -/
theorem allNeutral_bjp (wi : Nat) (f : Facing) (b : Button) :
    (allNeutralBuffer wi f).button_just_pressed b = false := by
  simp [InputBuffer.button_just_pressed, allNeutral_current, neutral_button_pressed]

/-- The default registry resolves the idle id to the idle state template. -/
theorem idle_sm_find (n : Nat) :
    (⟨StateId.Idle, n, defaultStateMachine.states⟩ : StateMachine).find_state StateId.Idle =
      some states.idle := by
  rfl

/-- The idle state contributes no frame actions at any frame. -/
theorem idle_sm_actions (n : Nat) :
    (⟨StateId.Idle, n, defaultStateMachine.states⟩ : StateMachine).get_current_actions = [] := by
  rfl

/-- Advancing the idle machine only increments the within-state counter:
idle expires into idle. -/
theorem idle_sm_advance (n : Nat) :
    (⟨StateId.Idle, n, defaultStateMachine.states⟩ : StateMachine).advance_frame =
      ⟨StateId.Idle, n + 1, defaultStateMachine.states⟩ := by
  unfold StateMachine.advance_frame
  simp only [idle_sm_find (n + 1)]
  rw [if_pos]
  · unfold StateMachine.transition
    simp
  · show n + 1 ≥ states.idle.duration
    show n + 1 ≥ 1
    omega

/-- A grounded, motionless physics state is a fixed point of `Physics::update`. -/
theorem physics_update_grounded (pos : Vec2) (hy : pos.y = 0) :
    Physics.update (Physics.new pos) = Physics.new pos := by
  obtain ⟨px, py⟩ := pos
  simp only at hy
  subst hy
  simp [Physics.update, Physics.new, Vec2.add, Vec2.ZERO, zero_mul, Int.zero_tdiv]

/-- With an all-neutral buffer, input processing leaves an idle entity unchanged. -/
theorem process_input_neutral (e : Entity) (wi : Nat) (f : Facing)
    (hcs : e.state_machine.current_state = StateId.Idle) :
    e.process_input (some (allNeutralBuffer wi f)) = e := by
  unfold Entity.process_input
  simp only [allNeutral_bjp, Bool.and_false, if_false, allNeutral_current]
  unfold Entity.process_movement
  simp [hcs, Direction.is_up, InputState.neutral]

/-- `idlePlayer` projection: no hitstun. -/
theorem idlePlayer_hitstun (id : Nat) (pos : Vec2) (n : Nat) :
    (idlePlayer id pos n).hitstun_remaining = 0 := rfl

/-- `idlePlayer` projection: no blockstun. -/
theorem idlePlayer_blockstun (id : Nat) (pos : Vec2) (n : Nat) :
    (idlePlayer id pos n).blockstun_remaining = 0 := rfl

/-- `idlePlayer` projection: the idle machine at frame `n`. -/
theorem idlePlayer_sm (id : Nat) (pos : Vec2) (n : Nat) :
    (idlePlayer id pos n).state_machine = ⟨StateId.Idle, n, defaultStateMachine.states⟩ := rfl

/-- `idlePlayer` projection: fresh physics at its position. -/
theorem idlePlayer_phys (id : Nat) (pos : Vec2) (n : Nat) :
    (idlePlayer id pos n).physics = Physics.new pos := rfl

/-- `idlePlayer` projection: the player id. -/
theorem idlePlayer_pid (id : Nat) (pos : Vec2) (n : Nat) :
    (idlePlayer id pos n).player_id = id := rfl

/-- `idlePlayer` projection: the entity id. -/
theorem idlePlayer_id (id : Nat) (pos : Vec2) (n : Nat) :
    (idlePlayer id pos n).id = id := rfl

/-- `idlePlayer` projection: full health. -/
theorem idlePlayer_health (id : Nat) (pos : Vec2) (n : Nat) :
    (idlePlayer id pos n).health = Health.new 1000 := rfl

/-- An idle entity executes no state actions. -/
theorem exec_actions_idle (id : Nat) (pos : Vec2) (n : Nat) :
    (idlePlayer id pos n).execute_state_actions = idlePlayer id pos n := by
  unfold Entity.execute_state_actions
  rw [show (idlePlayer id pos n).state_machine.get_current_actions = [] from idle_sm_actions n]
  rfl

/-- An idle entity spawns no hitboxes. -/
theorem get_hitboxes_idle (id : Nat) (pos : Vec2) (n : Nat) :
    (idlePlayer id pos n).get_hitboxes = [] := by
  unfold Entity.get_hitboxes
  rw [show (idlePlayer id pos n).state_machine.get_current_actions = [] from idle_sm_actions n]
  rfl

/-- One `Entity::update` with neutral input advances an idle grounded player's
within-state frame and changes nothing else. -/
theorem idlePlayer_update (id : Nat) (pos : Vec2) (n wi : Nat) (f : Facing)
    (hy : pos.y = 0) :
    (idlePlayer id pos n).update (some (allNeutralBuffer wi f)) =
      idlePlayer id pos (n + 1) := by
  simp only [Entity.update, idlePlayer_hitstun, idlePlayer_blockstun, gt_iff_lt,
    Nat.lt_irrefl, if_false, and_self, if_true,
    process_input_neutral, idlePlayer_sm, exec_actions_idle,
    idle_sm_advance, idlePlayer_phys, physics_update_grounded pos hy]
  rfl

/-- Facing update of player 1 toward player 2 is the identity at start positions. -/
theorem update_facing_p1 (n : Nat) :
    (idlePlayer 0 ⟨-50000, 0⟩ n).update_facing ⟨50000, 0⟩ = idlePlayer 0 ⟨-50000, 0⟩ n := rfl

/-- Facing update of player 2 toward player 1 is the identity at start positions. -/
theorem update_facing_p2 (n : Nat) :
    (idlePlayer 1 ⟨50000, 0⟩ n).update_facing ⟨-50000, 0⟩ = idlePlayer 1 ⟨50000, 0⟩ n := rfl

/-- Advancing the ring cursor commutes with the modulus. -/
theorem mod_step (n : Nat) :
    (n % INPUT_BUFFER_SIZE + 1) % INPUT_BUFFER_SIZE = (n + 1) % INPUT_BUFFER_SIZE := by
  rw [INPUT_BUFFER_SIZE]
  omega

/-- Phase 2 on a neutral stage advances both players' within-state frames. -/
theorem stage_update_entities (fr m wi : Nat) (cs : CollisionSystem) :
    (neutralStage fr m wi cs).update_entities = neutralStage fr (m + 1) wi cs := by
  simp only [Engine.update_entities, neutralStage, mapWithIndex]
  norm_num [idlePlayer_update, idlePlayer_pid, InputManager.get_player_input]

/-- Phase 3 on a neutral stage rebuilds the scratch space with the two body
hurtboxes and no hitboxes. -/
theorem stage_detect_collisions (fr m wi : Nat) (cs : CollisionSystem) :
    (neutralStage fr m wi cs).detect_collisions = neutralStage fr m wi neutralCS := by
  simp only [Engine.detect_collisions, neutralStage]
  norm_num [get_hitboxes_idle, Entity.get_hurtboxes, idlePlayer_phys, Physics.new,
    CollisionBox.hurtbox, CollisionBox.translate, Rect.new, CollisionSystem.clear,
    CollisionSystem.add_hurtbox, MAX_HURTBOXES, neutralCS, idlePlayer_id]

/-- Phase 4 on a neutral stage finds no collisions and applies no hits. -/
theorem stage_resolve_hits (fr m wi : Nat) :
    (neutralStage fr m wi neutralCS).resolve_hits = neutralStage fr m wi neutralCS := by
  simp [Engine.resolve_hits, neutralStage, neutralCS, CollisionSystem.check_collisions]

/-- Phase 5 on a neutral stage recomputes an in-progress outcome. -/
theorem stage_check_win (fr m wi : Nat) (cs : CollisionSystem) :
    (neutralStage fr m wi cs).check_win_conditions = neutralStage fr m wi cs := by
  simp [Engine.check_win_conditions, neutralStage, List.getD, idlePlayer_health,
    Health.is_alive, Health.new]

/-- Phase 6 on a neutral stage keeps both facings. -/
theorem stage_update_facing (fr m wi : Nat) (cs : CollisionSystem) :
    (neutralStage fr m wi cs).update_facing = neutralStage fr m wi cs := by
  simp [Engine.update_facing, neutralStage, List.getD, idlePlayer_phys, Physics.new,
    update_facing_p1, update_facing_p2]

/-- One neutral tick maps the closed-form state at `n` to the one at `n + 1`. -/
theorem neutral_step (n : Nat) :
    (neutralEngine n).tick InputState.neutral InputState.neutral = neutralEngine (n + 1) := by
  have hgr : ((neutralEngine n).game_result ≠ GameResult.InProgress) = False := by
    simp [neutralEngine]
  have hsucc : ((n + 1 = 0) = False) := by simp
  rw [Engine.tick]
  simp only [hgr, if_false]
  simp only [neutralEngine, InputManager.update_player_input, reduceIte, allNeutral_push,
    mod_step, hsucc, if_false]
  show (let C := (((((neutralStage n n ((n + 1) % INPUT_BUFFER_SIZE)
        (if n = 0 then CollisionSystem.new
          else neutralCS)).update_entities).detect_collisions).resolve_hits).check_win_conditions).update_facing
    ({ frame := C.frame + 1
       entities := C.entities
       entity_count := C.entity_count
       collision_system := C.collision_system
       input_manager := C.input_manager
       game_result := C.game_result } : Engine)) =
    neutralStage (n + 1) (n + 1) ((n + 1) % INPUT_BUFFER_SIZE) neutralCS
  simp only [stage_update_entities, stage_detect_collisions, stage_resolve_hits,
    stage_check_win, stage_update_facing]
  rfl

/-- Running `N` neutral ticks from the closed-form state at `n` lands at `n + N`. -/
theorem neutral_run (N : Nat) :
    ∀ n : Nat, Engine.run (neutralEngine n)
      (List.replicate N (InputState.neutral, InputState.neutral)) = neutralEngine (n + N) := by
  induction N with
  | zero => intro n; rfl
  | succ M ih =>
    intro n
    show Engine.run ((neutralEngine n).tick InputState.neutral InputState.neutral)
      (List.replicate M (InputState.neutral, InputState.neutral)) = _
    rw [neutral_step, ih (n + 1)]
    congr 1
    omega

/-- The freshly initialized match is the closed-form neutral state at frame 0. -/
theorem init_match_eq_neutralEngine : Engine.new.init_match = neutralEngine 0 := rfl

/-- C7: ticking a freshly initialized match with neutral input for both players
for `N` frames advances the frame counter by exactly `N` and leaves both
players' health and the game outcome unchanged. -/
theorem neutral_ticks_spec (N : Nat) :
    (Engine.run Engine.new.init_match
      (List.replicate N (InputState.neutral, InputState.neutral))).frame = N ∧
    ((Engine.run Engine.new.init_match
      (List.replicate N (InputState.neutral, InputState.neutral))).get_player_entity 0).map
        (fun ent => ent.health.current) =
      (Engine.new.init_match.get_player_entity 0).map (fun ent => ent.health.current) ∧
    ((Engine.run Engine.new.init_match
      (List.replicate N (InputState.neutral, InputState.neutral))).get_player_entity 1).map
        (fun ent => ent.health.current) =
      (Engine.new.init_match.get_player_entity 1).map (fun ent => ent.health.current) ∧
    (Engine.run Engine.new.init_match
      (List.replicate N (InputState.neutral, InputState.neutral))).game_result =
      Engine.new.init_match.game_result := by
  rw [init_match_eq_neutralEngine, neutral_run N 0, Nat.zero_add]
  exact ⟨rfl, rfl, rfl, rfl⟩

/-! ### Health invariant (C2): entity-level preservation -/

theorem advance_frame_states (sm : StateMachine) :
    (sm.advance_frame).states = sm.states := by
  unfold StateMachine.advance_frame
  dsimp only
  split
  · split_ifs
    · exact StateMachine.transition_states _ _
    · rfl
  · rfl

theorem process_movement_health (e : Entity) (c : InputState) :
    (e.process_movement c).health = e.health := by
  unfold Entity.process_movement
  cases c.direction <;> split_ifs <;> rfl

theorem process_movement_states (e : Entity) (c : InputState) :
    (e.process_movement c).state_machine.states = e.state_machine.states := by
  unfold Entity.process_movement
  cases c.direction <;> split_ifs <;>
    simp [StateMachine.transition_states]

theorem process_input_health (e : Entity) (inp : Option InputBuffer) :
    (e.process_input inp).health = e.health := by
  unfold Entity.process_input
  cases inp with
  | none => rfl
  | some b =>
    dsimp only
    split_ifs <;> first | rfl | exact process_movement_health _ _

theorem process_input_states (e : Entity) (inp : Option InputBuffer) :
    (e.process_input inp).state_machine.states = e.state_machine.states := by
  unfold Entity.process_input
  cases inp with
  | none => rfl
  | some b =>
    dsimp only
    split_ifs <;>
      first
        | simp [StateMachine.transition_states]
        | exact process_movement_states _ _

theorem apply_action_health (e : Entity) (a : StateAction) :
    (e.apply_action a).health = e.health := by
  cases a <;> rfl

theorem apply_action_states (e : Entity) (a : StateAction) :
    (e.apply_action a).state_machine.states = e.state_machine.states := by
  cases a <;> simp [Entity.apply_action, StateMachine.transition_states]

theorem foldl_apply_action_health :
    ∀ (l : List StateAction) (e : Entity), (l.foldl Entity.apply_action e).health = e.health := by
  intro l
  induction l with
  | nil => intro e; rfl
  | cons a as ih => intro e; rw [List.foldl_cons, ih, apply_action_health]

theorem foldl_apply_action_states :
    ∀ (l : List StateAction) (e : Entity),
      (l.foldl Entity.apply_action e).state_machine.states = e.state_machine.states := by
  intro l
  induction l with
  | nil => intro e; rfl
  | cons a as ih => intro e; rw [List.foldl_cons, ih, apply_action_states]

theorem exec_actions_health (e : Entity) :
    (e.execute_state_actions).health = e.health :=
  foldl_apply_action_health _ _

theorem exec_actions_states (e : Entity) :
    (e.execute_state_actions).state_machine.states = e.state_machine.states :=
  foldl_apply_action_states _ _

theorem update_health (e : Entity) (inp : Option InputBuffer) :
    (e.update inp).health = e.health := by
  simp only [Entity.update]
  split_ifs <;> simp [exec_actions_health, process_input_health]

theorem update_states (e : Entity) (inp : Option InputBuffer) :
    (e.update inp).state_machine.states = e.state_machine.states := by
  simp only [Entity.update]
  split_ifs <;>
    simp [advance_frame_states, exec_actions_states, process_input_states,
      StateMachine.transition_states]

theorem update_facing_health (e : Entity) (pos : Vec2) :
    (e.update_facing pos).health = e.health := by
  unfold Entity.update_facing
  split_ifs <;> rfl

theorem update_facing_states (e : Entity) (pos : Vec2) :
    (e.update_facing pos).state_machine.states = e.state_machine.states := by
  unfold Entity.update_facing
  split_ifs <;> rfl

theorem take_hit_health_inv (e : Entity) (col : CollisionResult) (b : Bool)
    (hdmg : 0 ≤ col.attack_data.damage) (h : healthInv e.health) :
    healthInv (e.take_hit col b).health := by
  unfold Entity.take_hit
  dsimp only
  split_ifs
  · exact h
  · unfold healthInv Health.take_damage at *
    constructor
    · simp
    · simp only []
      omega

theorem take_hit_states (e : Entity) (col : CollisionResult) (b : Bool) :
    (e.take_hit col b).state_machine.states = e.state_machine.states := by
  unfold Entity.take_hit
  dsimp only
  split_ifs <;> simp [StateMachine.transition_states]


/-! ### Health invariant (C2): list helpers -/

theorem mem_of_set {α : Type} :
    ∀ (l : List α) (i : Nat) (b x : α), x ∈ l.set i b → x ∈ l ∨ x = b := by
  intro l
  induction l with
  | nil => intro i b x hx; cases hx
  | cons a as ih =>
    intro i b x hx
    cases i with
    | zero =>
      rcases List.mem_cons.mp hx with h | h
      · right; exact h
      · left; exact List.mem_cons_of_mem _ h
    | succ j =>
      rcases List.mem_cons.mp hx with h | h
      · left; exact h ▸ List.mem_cons_self _ _
      · rcases ih j b x h with h2 | h2
        · left; exact List.mem_cons_of_mem _ h2
        · right; exact h2

theorem mem_mapWithIndex {α : Type} (f : Nat → α → α) :
    ∀ (l : List α) (i : Nat) (x : α), x ∈ mapWithIndex f i l → ∃ j a, a ∈ l ∧ x = f j a := by
  intro l
  induction l with
  | nil => intro i x hx; cases hx
  | cons a as ih =>
    intro i x hx
    rcases List.mem_cons.mp hx with h | h
    · exact ⟨i, a, List.mem_cons_self _ _, h⟩
    · obtain ⟨j, a2, ha2, hxa⟩ := ih (i + 1) x h
      exact ⟨j, a2, List.mem_cons_of_mem _ ha2, hxa⟩

theorem getD_some_mem {α : Type} :
    ∀ (l : List (Option α)) (i : Nat) (d : α), l.getD i Option.none = some d → some d ∈ l := by
  intro l
  induction l with
  | nil => intro i d h; cases i <;> cases h
  | cons a as ih =>
    intro i d h
    cases i with
    | zero => exact h ▸ List.mem_cons_self _ _
    | succ j => exact List.mem_cons_of_mem _ (ih j d h)

/-! ### Health invariant (C2): collision damage chain -/

theorem get_actions_mem (s : State) (frame : Nat) (a : StateAction)
    (ha : a ∈ s.get_actions frame) : ∃ fd ∈ s.frame_data, fd.action = a := by
  unfold State.get_actions at ha
  obtain ⟨fd, hfd, hact⟩ := List.mem_map.mp ha
  exact ⟨fd, (List.mem_filter.mp (List.take_subset _ _ hfd)).1, hact⟩

theorem get_current_actions_mem (sm : StateMachine) (a : StateAction)
    (ha : a ∈ sm.get_current_actions) :
    ∃ s ∈ sm.states, ∃ fd ∈ s.frame_data, fd.action = a := by
  unfold StateMachine.get_current_actions at ha
  rcases hf : sm.find_state sm.current_state with _ | st
  · rw [hf] at ha; cases ha
  · rw [hf] at ha
    exact ⟨st, List.mem_of_find?_eq_some hf, get_actions_mem st _ a ha⟩

theorem get_hitboxes_ok (e : Entity) (hb : CollisionBox)
    (hmem : hb ∈ e.get_hitboxes) (hsm : smOK e.state_machine) : hitboxOK hb := by
  unfold Entity.get_hitboxes at hmem
  have hmem2 := List.take_subset _ _ hmem
  obtain ⟨a, ha, hfa⟩ := List.mem_filterMap.mp hmem2
  obtain ⟨s, hs, fd, hfd, hact⟩ := get_current_actions_mem _ _ ha
  cases a with
  | Hitbox x y w ht atk =>
    intro ad had
    have hdmg : actionDamageOK fd.action = true := hsm s hs fd hfd
    rw [hact] at hdmg
    simp only [actionDamageOK, decide_eq_true_eq] at hdmg
    dsimp only at hfa
    split_ifs at hfa <;>
    · injection hfa with hfa2
      rw [← hfa2] at had
      simp only [CollisionBox.translate, CollisionBox.hitbox, Option.some.injEq] at had
      rw [← had]
      exact hdmg
  | SetVelocity x y => dsimp only at hfa; cases hfa
  | AddMomentum x y => dsimp only at hfa; cases hfa
  | Transition t => dsimp only at hfa; cases hfa
  | none => dsimp only at hfa; cases hfa


/-! ### Health invariant (C2): collision system invariants -/

theorem add_hitbox_ok (cs : CollisionSystem) (b : CollisionBox)
    (hcs : csOK cs) (hb : hitboxOK b) : csOK (cs.add_hitbox b) := by
  unfold CollisionSystem.add_hitbox
  split_ifs
  · intro x hx
    rcases List.mem_append.mp hx with h | h
    · exact hcs x h
    · rw [List.mem_singleton.mp h]; exact hb
  · exact hcs

theorem add_hurtbox_ok (cs : CollisionSystem) (b : CollisionBox)
    (hcs : csOK cs) : csOK (cs.add_hurtbox b) := by
  unfold CollisionSystem.add_hurtbox
  split_ifs <;> exact hcs

theorem foldl_add_hitbox_ok :
    ∀ (l : List CollisionBox) (cs : CollisionSystem),
      (∀ b ∈ l, hitboxOK b) → csOK cs → csOK (l.foldl CollisionSystem.add_hitbox cs) := by
  intro l
  induction l with
  | nil => intro cs _ h; exact h
  | cons b bs ih =>
    intro cs hall hcs
    rw [List.foldl_cons]
    exact ih _ (fun x hx => hall x (List.mem_cons_of_mem _ hx))
      (add_hitbox_ok cs b hcs (hall b (List.mem_cons_self _ _)))

theorem foldl_add_hurtbox_ok :
    ∀ (l : List CollisionBox) (cs : CollisionSystem),
      csOK cs → csOK (l.foldl CollisionSystem.add_hurtbox cs) := by
  intro l
  induction l with
  | nil => intro cs h; exact h
  | cons b bs ih =>
    intro cs hcs
    rw [List.foldl_cons]
    exact ih _ (add_hurtbox_ok cs b hcs)

theorem detect_collisions_csOK (e : Engine) (he : engineOK e) :
    csOK (e.detect_collisions).collision_system := by
  unfold Engine.detect_collisions
  dsimp only
  have hsub : ∀ oe ∈ e.entities.take e.entity_count, ∀ ent, oe = some ent →
      smOK ent.state_machine := by
    intro oe hmem ent heq
    exact (he oe (List.take_subset _ _ hmem) ent heq).2
  generalize e.entities.take e.entity_count = l at hsub
  have hstart : csOK e.collision_system.clear := by
    intro b hb; cases hb
  generalize e.collision_system.clear = cs0 at hstart
  induction l generalizing cs0 with
  | nil => exact hstart
  | cons oe rest ih =>
    rw [List.foldl_cons]
    have hrest : ∀ oe2 ∈ rest, ∀ ent, oe2 = some ent → smOK ent.state_machine :=
      fun oe2 h2 => hsub oe2 (List.mem_cons_of_mem _ h2)
    cases oe with
    | none => exact ih hrest _ hstart
    | some ent =>
      apply ih hrest
      apply foldl_add_hurtbox_ok
      apply foldl_add_hitbox_ok
      · intro b hb
        exact get_hitboxes_ok ent b hb (hsub (some ent) (List.mem_cons_self _ _) ent rfl)
      · exact hstart

theorem check_collisions_damage (cs : CollisionSystem) (hcs : csOK cs) :
    ∀ col ∈ cs.check_collisions, 0 ≤ col.attack_data.damage := by
  intro col hcol
  unfold CollisionSystem.check_collisions at hcol
  have hcol2 := List.take_subset _ _ hcol
  obtain ⟨hb, hhb, hmem⟩ := List.mem_flatMap.mp hcol2
  split_ifs at hmem
  · obtain ⟨ub, _, hub⟩ := List.mem_filterMap.mp hmem
    split_ifs at hub
    · rcases had : hb.attack_data with _ | ad
      · rw [had] at hub; cases hub
      · rw [had] at hub
        simp only [Option.map_some', Option.some.injEq] at hub
        have := hcs hb hhb ad had
        rw [← hub]
        exact this
  · cases hmem


/-! ### Health invariant (C2): engine-level preservation -/

theorem entOK_of_same (e1 e2 : Entity)
    (hh : e2.health = e1.health)
    (hs : e2.state_machine.states = e1.state_machine.states)
    (h : entOK e1) : entOK e2 := by
  constructor
  · rw [hh]; exact h.1
  · intro s hsmem
    rw [hs] at hsmem
    exact h.2 s hsmem

theorem update_entities_ok (e : Engine) (he : engineOK e) :
    engineOK e.update_entities := by
  intro oe hmem ent heq
  unfold Engine.update_entities at hmem
  dsimp only at hmem
  obtain ⟨j, a, ha, hxa⟩ := mem_mapWithIndex _ _ _ _ hmem
  by_cases hj : j < e.entity_count
  · rw [if_pos hj] at hxa
    cases a with
    | none => rw [hxa] at heq; cases heq
    | some ent0 =>
      simp only [Option.map_some'] at hxa
      rw [hxa] at heq
      injection heq with heq2
      refine entOK_of_same ent0 ent ?_ ?_ (he _ ha ent0 rfl)
      · rw [← heq2]; exact update_health _ _
      · rw [← heq2]; exact update_states _ _
  · rw [if_neg hj] at hxa
    rw [hxa] at heq
    exact he _ ha ent heq

theorem detect_collisions_entities (e : Engine) :
    (e.detect_collisions).entities = e.entities := rfl

theorem apply_hit_ok (e : Engine) (col : CollisionResult) (he : engineOK e)
    (hdmg : 0 ≤ col.attack_data.damage) : engineOK (e.apply_hit col) := by
  unfold Engine.apply_hit
  rcases e.find_entity_index col.defender with _ | idx
  · exact he
  · dsimp only
    rcases hd : e.entities.getD idx Option.none with _ | defender
    · exact he
    · intro oe hmem ent heq
      rcases mem_of_set _ _ _ _ hmem with h | h
      · exact he _ h ent heq
      · rw [h] at heq
        injection heq with heq2
        have hdef : entOK defender := he _ (getD_some_mem _ _ _ hd) defender rfl
        rw [← heq2]
        constructor
        · exact take_hit_health_inv _ _ _ hdmg hdef.1
        · intro s hsmem
          rw [take_hit_states] at hsmem
          exact hdef.2 s hsmem

theorem foldl_apply_hit_ok :
    ∀ (cols : List CollisionResult) (e : Engine),
      engineOK e → (∀ c ∈ cols, 0 ≤ c.attack_data.damage) →
      engineOK (cols.foldl Engine.apply_hit e) := by
  intro cols
  induction cols with
  | nil => intro e he _; exact he
  | cons c cs2 ih =>
    intro e he hall
    rw [List.foldl_cons]
    exact ih _ (apply_hit_ok e c he (hall c (List.mem_cons_self _ _)))
      (fun c2 h2 => hall c2 (List.mem_cons_of_mem _ h2))

theorem resolve_hits_ok (e : Engine) (he : engineOK e)
    (hcs : csOK e.collision_system) : engineOK e.resolve_hits :=
  foldl_apply_hit_ok _ _ he (check_collisions_damage _ hcs)

theorem check_win_entities (e : Engine) :
    (e.check_win_conditions).entities = e.entities := by
  unfold Engine.check_win_conditions
  split_ifs <;> rfl

theorem getD_set_ne {α : Type} :
    ∀ (l : List α) (i j : Nat) (b d : α), i ≠ j →
      (l.set i b).getD j d = l.getD j d := by
  intro l
  induction l with
  | nil => intro i j b d _; rfl
  | cons a as ih =>
    intro i j b d hne
    cases i with
    | zero =>
      cases j with
      | zero => exact absurd rfl hne
      | succ j2 => rfl
    | succ i2 =>
      cases j with
      | zero => rfl
      | succ j2 => exact ih i2 j2 b d (fun h => hne (by rw [h]))

theorem set_facing_ok (e : Engine) (i : Nat) (ent0 : Entity) (pos : Vec2)
    (hm : some ent0 ∈ e.entities) (he : engineOK e) :
    engineOK { e with entities := e.entities.set i (some (ent0.update_facing pos)) } := by
  intro oe hmem ent heq
  rcases mem_of_set _ _ _ _ hmem with h | h
  · exact he _ h ent heq
  · rw [h] at heq
    injection heq with heq2
    refine entOK_of_same ent0 ent ?_ ?_ (he _ hm ent0 rfl)
    · rw [← heq2]; exact update_facing_health _ _
    · rw [← heq2]; exact update_facing_states _ _

theorem update_facing_ok (e : Engine) (he : engineOK e) :
    engineOK e.update_facing := by
  unfold Engine.update_facing
  split_ifs with hc
  · dsimp only
    rcases h0 : e.entities.getD 0 Option.none with _ | p1 <;>
      rcases h1 : e.entities.getD 1 Option.none with _ | p2 <;>
      simp only [Option.map_none', Option.map_some']
    · exact he
    · exact he
    · rw [h1]
      exact he
    · rw [getD_set_ne _ 0 1 _ _ (by omega), h1]
      simp only [Option.map_some']
      have he1 := set_facing_ok e 0 p1 (p2.physics.position) (getD_some_mem _ _ _ h0) he
      have hm2 : some p2 ∈
          (e.entities.set 0 (some (p1.update_facing p2.physics.position))) := by
        apply getD_some_mem _ 1
        rw [getD_set_ne _ 0 1 _ _ (by omega), h1]
      exact set_facing_ok _ 1 p2 (p1.physics.position) hm2 he1
  · exact he


theorem engineOK_entities_eq (e1 e2 : Engine) (h : e2.entities = e1.entities)
    (he : engineOK e1) : engineOK e2 := by
  intro oe hm
  rw [h] at hm
  exact he oe hm

theorem tick_engineOK (e : Engine) (i1 i2 : InputState) (he : engineOK e) :
    engineOK (e.tick i1 i2) := by
  unfold Engine.tick
  split_ifs
  · exact he
  · dsimp only
    refine engineOK_entities_eq _ _ rfl ?_
    apply update_facing_ok
    apply engineOK_entities_eq _ _ (check_win_entities _)
    apply resolve_hits_ok
    · apply engineOK_entities_eq _ _ (detect_collisions_entities _)
      apply update_entities_ok
      exact engineOK_entities_eq _ _ rfl he
    · apply detect_collisions_csOK
      apply update_entities_ok
      exact engineOK_entities_eq _ _ rfl he

theorem init_engineOK : engineOK Engine.new.init_match := by
  intro oe hmem ent heq
  simp [Engine.init_match, Engine.new, List.set] at hmem
  rcases hmem with rfl | rfl | rfl
  · injection heq with heq2
    rw [← heq2]
    simp only [entOK, healthInv, smOK, stateOK]
    decide
  · injection heq with heq2
    rw [← heq2]
    simp only [entOK, healthInv, smOK, stateOK]
    decide
  · cases heq

theorem trajectory_engineOK :
    ∀ (inputs : List (InputState × InputState)) (e : Engine), engineOK e →
      ∀ e2 ∈ e.trajectory inputs, engineOK e2 := by
  intro inputs
  induction inputs with
  | nil =>
    intro e he e2 hmem
    unfold Engine.trajectory at hmem
    rcases List.mem_singleton.mp hmem with rfl
    exact he
  | cons p ps ih =>
    intro e he e2 hmem
    unfold Engine.trajectory at hmem
    rw [List.scanl_cons] at hmem
    rcases List.mem_cons.mp hmem with h | h
    · rw [h]; exact he
    · exact ih (e.tick p.1 p.2) (tick_engineOK e p.1 p.2 he) e2 h

/-- C2: for every input sequence from a freshly initialized match, every live
entity at every frame of the trajectory satisfies
`0 ≤ health.current ≤ health.maximum`; hits are applied through ticks and
`Health::take_damage` clamps at zero while engine damage values are
nonnegative. -/
theorem health_invariant (inputs : List (InputState × InputState)) :
    ∀ e2 ∈ Engine.trajectory Engine.new.init_match inputs,
      ∀ oe ∈ e2.entities, ∀ ent, oe = some ent →
        0 ≤ ent.health.current ∧ ent.health.current ≤ ent.health.maximum := by
  intro e2 he2 oe hoe ent heq
  exact (trajectory_engineOK inputs _ init_engineOK e2 he2 oe hoe ent heq).1

/-- Witness for C2 on the empty run: the initialized player satisfies the
health bounds. -/
theorem health_invariant_witness :
    Engine.new.init_match ∈ Engine.trajectory Engine.new.init_match [] ∧
    some (Entity.new 0 0 ⟨-50000, 0⟩) ∈ Engine.new.init_match.entities ∧
    (0 ≤ (Entity.new 0 0 ⟨-50000, 0⟩).health.current ∧
      (Entity.new 0 0 ⟨-50000, 0⟩).health.current ≤
        (Entity.new 0 0 ⟨-50000, 0⟩).health.maximum) :=
  ⟨List.mem_singleton.mpr rfl, by decide,
   health_invariant [] Engine.new.init_match (List.mem_singleton.mpr rfl)
     (some (Entity.new 0 0 ⟨-50000, 0⟩)) (by decide) (Entity.new 0 0 ⟨-50000, 0⟩) rfl⟩


end Bagarre
